import Mathlib

/-!
A shallow embedding of the core of the auto-lofi repository.

The repository contains two near-duplicate implementations of the same
auto-login service:

* `src/autologin.js` — class `AdvancedAutoLogin` with `loadConfig`,
  `saveSession` and `loadSession`, `checkInternetConnection`, `loginWithRetry`,
  `executeLogin`, `getLoginStatus`, `start` and `stop`; modelled here in
  namespace `Autologin`.
* `src/autolofi.js` — a wizard-style class, also `AdvancedAutoLogin`, with its
  own `loadConfig`, `checkInternetConnection`, `executeLogin`, `startService`
  and `stopService`; modelled here in namespace `Autolofi`.

Network I/O is abstracted by a `transport : Nat → PostResult` giving, for each
attempt number, the observable result of the POST that attempt would issue, and
by a `PostResult` for the connectivity GET.  Wall-clock instants are naturals
(milliseconds).  File effects and console/file logging are threaded through an
explicit `Trace` record.  The `session.json` file content is modelled as a
JSON-style list of key/value pairs, mirroring `JSON.stringify`/`JSON.parse`
round-tripping of flat records.
-/

/-- The `settings` object of `config.json` (both implementations). -/
structure Settings where
  enableNotifications : Bool
  autoRetry : Bool
  checkConnection : Bool
  logToFile : Bool
  deriving DecidableEq

/-- The observable result of one outbound HTTP request: either a response with
its status code and status text, or a network-level failure (connection error
or timeout) whose message axios would report. -/
inductive PostResult where
  | response (status : Nat) (statusText : String)
  | netError (message : String)
  deriving DecidableEq

/-- The `response.status === 200` test both implementations use as the success
condition of a login attempt. -/
def isOk200 : PostResult → Bool
  | PostResult.response status _ => status == 200
  | PostResult.netError _ => false

/-- The `error.message` caught by `loginWithRetry` in autologin.js for a
non-200 result.  Its `validateStatus: status => status >= 200 && status < 500`
means a response in that range is delivered and the code itself throws
`HTTP <status>: <statusText>`, while a response outside the range (or a network
error) makes axios throw its own message. -/
def axiosErrMsg : PostResult → String
  | PostResult.response status statusText =>
      if 200 ≤ status ∧ status < 500 then
        "HTTP " ++ toString status ++ ": " ++ statusText
      else
        "Request failed with status code " ++ toString status
  | PostResult.netError message => message

/-- A flat JSON value: the session and config records only hold strings and
numbers (instants are milliseconds since the epoch). -/
inductive JVal where
  | str (s : String)
  | num (n : Nat)
  deriving DecidableEq

/-- A flat JSON object, as written by `JSON.stringify` on a flat record. -/
abbrev JObj := List (String × JVal)

/-- Field access on a parsed JSON object. -/
def jlookup (key : String) : JObj → Option JVal
  | [] => none
  | (k, v) :: rest => if k == key then some v else jlookup key rest

/-- Reads a numeric field value, `none` when absent or not a number. -/
def jnum : Option JVal → Option Nat
  | some (JVal.num n) => some n
  | _ => none

/-- Effect trace threaded through the login procedure: the number of POSTs
issued to the login URL, the delays slept (in milliseconds, in order), the
content of `session.json`, and the emitted log lines. -/
structure Trace where
  posts : Nat
  sleeps : List Nat
  session : Option JObj
  logs : List String
  deriving DecidableEq

/-- The trace of a fresh run: no POSTs, no sleeps, no session file, no logs. -/
def Trace.empty : Trace := { posts := 0, sleeps := [], session := none, logs := [] }

/-- Appends one log line (console and best-effort file log are merged). -/
def pushLog (tr : Trace) (m : String) : Trace := { tr with logs := tr.logs ++ [m] }

/-- Records that one POST to the login URL was issued. -/
def pushPost (tr : Trace) : Trace := { tr with posts := tr.posts + 1 }

/-- Records one `delay(ms)` sleep. -/
def pushSleep (tr : Trace) (d : Nat) : Trace := { tr with sleeps := tr.sleeps ++ [d] }

/-- `this.maxRetries = 3` (both implementations). -/
def maxRetries : Nat := 3

/-- `this.retryDelay = 5000` milliseconds (both implementations). -/
def retryDelay : Nat := 5000

/-- The `sessionData` record built on a successful attempt in autologin.js. -/
structure SessionRecord where
  username : String
  loginTime : Nat
  attempt : Nat
  deriving DecidableEq

/-- The object `{...sessionData, lastLogin: new Date().toISOString()}` that
`saveSession` serializes into `session.json`. -/
def sessionJson (username : String) (loginTime attempt lastLogin : Nat) : JObj :=
  [("username", JVal.str username), ("loginTime", JVal.num loginTime),
   ("attempt", JVal.num attempt), ("lastLogin", JVal.num lastLogin)]

/-- `saveSession` (autologin.js lines 50-59): overwrites `session.json` with the
record plus a freshly computed `lastLogin` timestamp. -/
def saveSession (sd : SessionRecord) (now : Nat) (_file : Option JObj) : Option JObj :=
  some (sessionJson sd.username sd.loginTime sd.attempt now)

/-- `loadSession` (autologin.js lines 61-68): reads and parses `session.json`;
any read or parse failure collapses to `none` (the code returns `null`). -/
def loadSession (file : Option JObj) : Option JObj := file

/-- The outcome object `loginWithRetry` returns in autologin.js. -/
structure LoginOutcome where
  success : Bool
  message : String
  attempt : Nat
  timestamp : Nat
  deriving DecidableEq

/-- A validated configuration (autologin.js `loadConfig` only returns once the
username and password checks pass). -/
structure Config where
  username : String
  password : String
  settings : Settings
  deriving DecidableEq

/-- A parsed but unvalidated `config.json`: the username and password fields may
be absent. -/
structure RawConfig where
  username : Option String
  password : Option String
  settings : Settings
  deriving DecidableEq

/-- JavaScript truthiness of an optional string field: absent (`undefined` or
`null`) and the empty string are falsy. -/
def truthyStr : Option String → Bool
  | none => false
  | some s => !(s == "")

namespace Autologin

/-- `checkInternetConnection` (autologin.js lines 70-77): `axios.get` with the
default `validateStatus` delivers only 2xx responses and throws otherwise; the
code then returns `response.status === 200` and the catch-all returns `false`.
Totality of this function is the never-raises guarantee. -/
def checkInternetConnection (r : PostResult) : Bool :=
  match r with
  | PostResult.response status _ =>
      if 200 ≤ status ∧ status < 300 then status == 200 else false
  | PostResult.netError _ => false

/-- The body of the `for (let attempt = 1; attempt <= this.maxRetries; ...)`
loop of `loginWithRetry` (autologin.js lines 79-124), recursing over the list
of remaining attempt indices.  Returns `none` if the loop exits without a
`return` (unreachable from attempt 1, mirroring the function resolving
`undefined` in that case). -/
def loginLoop (transport : Nat → PostResult) (username : String) (now : Nat) :
    List Nat → Trace → Option LoginOutcome × Trace
  | [], tr => (none, tr)
  | attempt :: rest, tr =>
    let tr1 := pushLog tr ("🔐 Trying to login... (Attempt " ++ toString attempt ++
      "/" ++ toString maxRetries ++ ")")
    let tr2 := pushPost tr1
    if isOk200 (transport attempt) then
      let saved := saveSession ({ username := username, loginTime := now, attempt := attempt })
        now tr2.session
      let tr3 := { tr2 with session := saved }
      (some { success := true, message := "✅ Login successful!",
              attempt := attempt, timestamp := now }, tr3)
    else
      let msg := axiosErrMsg (transport attempt)
      let tr3 := pushLog tr2 ("❌ Login attempt " ++ toString attempt ++ " failed: " ++ msg)
      if attempt < maxRetries then
        let tr4 := pushSleep (pushLog tr3 ("⏳ Waiting 5 seconds before retrying...")) retryDelay
        loginLoop transport username now rest tr4
      else
        (some { success := false, message := "❌ All login attempts failed: " ++ msg,
                attempt := attempt, timestamp := now }, tr3)

/-- `loginWithRetry` (autologin.js lines 79-124): the attempt loop over
attempts `1..maxRetries`.  Note the loop bound never consults
`settings.autoRetry` (the settings are not even in scope). -/
def loginWithRetry (transport : Nat → PostResult) (username : String) (now : Nat)
    (tr : Trace) : Option LoginOutcome × Trace :=
  loginLoop transport username now (List.range' 1 maxRetries) tr

/-- `executeLogin` (autologin.js lines 193-211): optional connectivity
short-circuit, then the retry loop, then result logging and an optional
notification.  `connected` is what `checkInternetConnection` would report; it
is consulted only when `settings.checkConnection` holds.  The first component
is the `LoginOutcome` the call produces (the JavaScript function itself always
resolves `undefined`; on the disconnected path no outcome is ever built, which
the model renders as `none`). -/
def executeLogin (config : Config) (connected : Bool) (transport : Nat → PostResult)
    (now : Nat) (tr : Trace) : Option LoginOutcome × Trace :=
  let tr0 := pushLog tr ("--- Starting login process ---")
  if config.settings.checkConnection && !connected then
    (none, pushLog tr0 ("❌ No internet connection"))
  else
    match loginWithRetry transport config.username now tr0 with
    | (some o, tr1) =>
      let tr2 := pushLog tr1 o.message
      let tr3 :=
        if config.settings.enableNotifications then
          pushLog tr2 (if o.success then ("📢 Notification: Login successful!")
            else ("🚨 Notification: Login failed! Please check manually."))
        else tr2
      (some o, tr3)
    | (none, tr1) => (none, tr1)

/-- The report `getLoginStatus` (autologin.js lines 148-157) renders into its
returned string. -/
inductive Report where
  | neverLoggedIn
  | lastLogin (time : Nat) (minutesAgo : Int)
  | invalidDate
  deriving DecidableEq

/-- `getLoginStatus` (autologin.js lines 148-157): `loadSession`, the
`"Never logged in"` branch on a missing record, otherwise
`Math.floor((now - lastLogin) / (1000 * 60))` minutes since the stored
`lastLogin` instant (`Math.floor` on a possibly negative quotient is `Int.fdiv`).
A stored record without a numeric `lastLogin` renders an invalid date. -/
def getLoginStatus (file : Option JObj) (now : Nat) : Report :=
  match loadSession file with
  | none => Report.neverLoggedIn
  | some session =>
    match jnum (jlookup ("lastLogin") session) with
    | some t => Report.lastLogin t (Int.fdiv ((now : Int) - (t : Int)) 60000)
    | none => Report.invalidDate

/-- `loadConfig` (autologin.js lines 18-33): an absent file creates a template
and throws; a parsed config missing a truthy username or password throws
`Username or password not found in config`; otherwise the config is returned. -/
def loadConfig (file : Option RawConfig) : Except String Config :=
  match file with
  | none =>
      Except.error ("config.json file has been created. Please fill in your username and password.")
  | some c =>
      if truthyStr c.username && truthyStr c.password then
        Except.ok { username := c.username.getD (""), password := c.password.getD (""),
                    settings := c.settings }
      else
        Except.error ("Username or password not found in config")

/-- Scheduler state of autologin.js: the `isRunning` flag, whether the interval
named by each stored handle is still live (`clearInterval` on it would cancel
a timer), and the number of live repeating timers of each kind (`setInterval`
leaks the old interval if a handle were ever overwritten while live, so the
counts are tracked separately from the handle flags). -/
structure SchedState where
  isRunning : Bool
  loginArmed : Bool
  connArmed : Bool
  activeLogin : Nat
  activeConn : Nat
  deriving DecidableEq

/-- The state of a freshly constructed `AdvancedAutoLogin`. -/
def initState : SchedState :=
  { isRunning := false, loginArmed := false, connArmed := false,
    activeLogin := 0, activeConn := 0 }

/-- `start` (autologin.js lines 159-191) restricted to its scheduler effects:
a no-op with a warning when already running; otherwise `isRunning` is set, the
config is loaded — on failure the catch resets `isRunning` and no timer was
armed — and on success the login interval is armed, plus the connectivity
interval when `settings.checkConnection` holds. -/
def startOp (file : Option RawConfig) (s : SchedState) : SchedState :=
  if s.isRunning then s
  else
    match loadConfig file with
    | Except.error _ => s
    | Except.ok cfg =>
      { isRunning := true,
        loginArmed := true,
        activeLogin := s.activeLogin + 1,
        connArmed := if cfg.settings.checkConnection then true else s.connArmed,
        activeConn := if cfg.settings.checkConnection then s.activeConn + 1 else s.activeConn }

/-- `stop` (autologin.js lines 221-230): `clearInterval` on each stored handle
(cancelling its interval only if still live), then `isRunning = false`.  It is
total: nothing on this path can raise. -/
def stopOp (s : SchedState) : SchedState :=
  { isRunning := false,
    loginArmed := false,
    connArmed := false,
    activeLogin := s.activeLogin - (if s.loginArmed then 1 else 0),
    activeConn := s.activeConn - (if s.connArmed then 1 else 0) }

/-- The scheduler states reachable from a fresh instance by any serialized
sequence of `start` and `stop` calls (`restart` is `stop` then `start`). -/
inductive Reached : SchedState → Prop where
  | init : Reached initState
  | step_start (file : Option RawConfig) (s : SchedState) :
      Reached s → Reached (startOp file s)
  | step_stop (s : SchedState) : Reached s → Reached (stopOp s)

end Autologin

namespace Autolofi

/-- `checkInternetConnection` (autolofi.js lines 110-117): `axios.get` with the
default `validateStatus` resolves exactly on a 2xx response, and the code then
returns `true`; every throw collapses to `false`.  Totality of this function is
the never-raises guarantee. -/
def checkInternetConnection (r : PostResult) : Bool :=
  match r with
  | PostResult.response status _ => decide (200 ≤ status ∧ status < 300)
  | PostResult.netError _ => false

/-- Whether the POST of one attempt in autolofi.js `executeLogin` throws: there
is no custom `validateStatus`, so axios rejects on every network error and
every non-2xx status, and resolves on 2xx. -/
def lofiThrows (r : PostResult) : Bool :=
  match r with
  | PostResult.response status _ => !(decide (200 ≤ status ∧ status < 300))
  | PostResult.netError _ => true

/-- The loop bound `config.settings.autoRetry ? this.maxRetries : 1` of
autolofi.js `executeLogin`. -/
def lofiBound (autoRetry : Bool) : Nat := if autoRetry then maxRetries else 1

/-- The body of the attempt loop of `executeLogin` (autolofi.js lines 530-563),
recursing over the list of remaining attempt indices.  A 2xx non-200 response
does not throw, fails the `status === 200` test, and falls through to the next
iteration without sleeping; a thrown attempt sleeps only when
`attempt < this.maxRetries && config.settings.autoRetry`.  `none` means the
loop was exhausted. -/
def lofiLoop (transport : Nat → PostResult) (autoRetry : Bool) :
    List Nat → Trace → Option Nat × Trace
  | [], tr => (none, tr)
  | attempt :: rest, tr =>
    let tr1 := pushPost tr
    if lofiThrows (transport attempt) then
      let tr2 := pushLog tr1 ("Attempt " ++ toString attempt ++ " failed")
      let tr3 :=
        if attempt < maxRetries && autoRetry then
          pushSleep (pushLog tr2 ("Retrying in 5s...")) retryDelay
        else tr2
      lofiLoop transport autoRetry rest tr3
    else if isOk200 (transport attempt) then
      (some attempt, pushLog tr1 ("Login successful (Attempt " ++ toString attempt ++ ")"))
    else
      lofiLoop transport autoRetry rest tr1

/-- The value `executeLogin` returns in autolofi.js: `{success: true, attempt}`
on a 200 response, `{success: false}` after the loop is exhausted. -/
inductive LofiOutcome where
  | ok (attempt : Nat)
  | failed
  deriving DecidableEq

/-- The `success` field of the returned object. -/
def LofiOutcome.success : LofiOutcome → Bool
  | LofiOutcome.ok _ => true
  | LofiOutcome.failed => false

/-- `executeLogin` (autolofi.js lines 520-571): logs the attempt, runs the
attempt loop over attempts `1..(autoRetry ? maxRetries : 1)`, and reports the
all-failed outcome when the loop is exhausted.  Note there is no connectivity
probe anywhere on this path, and no session persistence. -/
def executeLogin (cfg : RawConfig) (transport : Nat → PostResult) (tr : Trace) :
    LofiOutcome × Trace :=
  let tr0 := pushLog tr ("Login attempt")
  match lofiLoop transport cfg.settings.autoRetry
      (List.range' 1 (lofiBound cfg.settings.autoRetry)) tr0 with
  | (some attempt, tr1) => (LofiOutcome.ok attempt, tr1)
  | (none, tr1) => (LofiOutcome.failed, pushLog tr1 ("All login attempts failed"))

/-- `loadConfig` (autolofi.js lines 230-246) on a file that exists and parses:
the parsed object is returned as-is — there is no username or password
validation on this path (the wizard branch for an absent file is interactive
and out of scope). -/
def loadConfigParsed (c : RawConfig) : Except String RawConfig := Except.ok c

/-- Scheduler state of autolofi.js: `isRunning`, whether the stored login
interval handle is live, and the number of live login intervals. -/
structure LofiState where
  isRunning : Bool
  loginArmed : Bool
  activeLogin : Nat
  deriving DecidableEq

/-- `startService` (autolofi.js lines 310-337) restricted to its scheduler
effects: a no-op when already running; otherwise the parsed config is loaded
(which never fails on an existing file) and the login interval is armed. -/
def startService (c : RawConfig) (s : LofiState) : LofiState :=
  if s.isRunning then s
  else
    match loadConfigParsed c with
    | Except.error _ => s
    | Except.ok _ =>
      { isRunning := true, loginArmed := true, activeLogin := s.activeLogin + 1 }

end Autolofi

/-- The default settings of the generated `config.json` template. -/
def sampleSettings : Settings :=
  { enableNotifications := true, autoRetry := true, checkConnection := true,
    logToFile := true }

/-- A parsed configuration with the username missing. -/
def rawNoUsername : RawConfig :=
  { username := none, password := some ("pass"), settings := sampleSettings }

/-- A complete parsed configuration. -/
def rawFull : RawConfig :=
  { username := some ("user"), password := some ("pass"), settings := sampleSettings }

/-- A scheduler state with the service running and both timers armed. -/
def runningState : Autologin.SchedState :=
  { isRunning := true, loginArmed := true, connArmed := true,
    activeLogin := 1, activeConn := 1 }

/-! Helper lemmas shared by the claim theorems. -/

lemma attempts_eq : List.range' 1 maxRetries = [1, 2, 3] := rfl

lemma lofi_attempts_true : List.range' 1 (Autolofi.lofiBound true) = [1, 2, 3] := rfl

lemma lofi_attempts_false : List.range' 1 (Autolofi.lofiBound false) = [1] := rfl

lemma isOk200_response200 (text : String) :
    isOk200 (PostResult.response 200 text) = true := rfl

lemma lofiThrows_response200 (text : String) :
    Autolofi.lofiThrows (PostResult.response 200 text) = false := rfl

/-! The claim theorems. -/

/-- C5 (counterexample): the claim states that isConnected returns true exactly
when the GET yields a successful response in the 2xx range, but autologin.js
returns `response.status === 200`, so the 2xx status 204 yields `false`. -/
theorem probe_204_not_connected_cex :
    Autologin.checkInternetConnection (PostResult.response 204 ("No Content")) = false ∧
    200 ≤ 204 ∧ 204 < 300 := by
  refine ⟨rfl, by omega, by omega⟩

/-- C5 (amended): both probes are total (never raise) and return false on every
network error, timeout, or non-2xx status; the autolofi.js probe returns true
exactly on a 2xx response, while the autologin.js probe returns true exactly on
status 200. -/
theorem connectivity_probe_spec :
    ∀ (r : PostResult),
      (Autolofi.checkInternetConnection r = true ↔
        (∃ (status : Nat) (text : String),
          r = PostResult.response status text ∧ 200 ≤ status ∧ status < 300)) ∧
      (Autologin.checkInternetConnection r = true ↔
        (∃ (text : String), r = PostResult.response 200 text)) := by
  intro r
  cases r with
  | response s t =>
    refine ⟨?_, ?_⟩
    · simp only [Autolofi.checkInternetConnection, decide_eq_true_eq]
      constructor
      · intro h
        exact ⟨s, t, rfl, h.1, h.2⟩
      · rintro ⟨status, text, heq, h1, h2⟩
        cases heq
        exact ⟨h1, h2⟩
    · simp only [Autologin.checkInternetConnection]
      by_cases h : 200 ≤ s ∧ s < 300
      · rw [if_pos h]
        simp only [beq_iff_eq]
        constructor
        · intro hs
          exact ⟨t, by rw [hs]⟩
        · rintro ⟨text, heq⟩
          cases heq
          rfl
      · rw [if_neg h]
        simp only [Bool.false_eq_true, false_iff]
        rintro ⟨text, heq⟩
        cases heq
        exact h (by omega)
  | netError m =>
    refine ⟨?_, ?_⟩ <;>
      simp [Autolofi.checkInternetConnection, Autologin.checkInternetConnection]

/-- C8: `getLoginStatus` reports never-logged-in exactly when no session record
is present; for a stored last-login instant `T` and a call at `now ≥ T` the
reported elapsed minutes are `floor((now - T) / 60000)`. -/
theorem describe_report_spec :
    (∀ (now : Nat), Autologin.getLoginStatus none now = Autologin.Report.neverLoggedIn) ∧
    (∀ (o : JObj) (now : Nat),
      Autologin.getLoginStatus (some o) now ≠ Autologin.Report.neverLoggedIn) ∧
    (∀ (o : JObj) (T now : Nat), jnum (jlookup ("lastLogin") o) = some T → T ≤ now →
      Autologin.getLoginStatus (some o) now =
        Autologin.Report.lastLogin T (((now - T) / 60000 : Nat) : Int)) := by
  refine ⟨fun now => rfl, ?_, ?_⟩
  · intro o now
    simp only [Autologin.getLoginStatus, loadSession]
    cases jnum (jlookup ("lastLogin") o) <;> simp
  · intro o T now hT hle
    simp only [Autologin.getLoginStatus, loadSession, hT]
    have h1 : ((now : Int) - (T : Int)) = ((now - T : Nat) : Int) := by omega
    rw [h1]
    congr 1
    exact (Int.ofNat_fdiv (now - T) 60000).symm

/-- C8 (witness): a 130-second-old record reports 2 elapsed minutes, and the
empty store reports never-logged-in. -/
theorem describe_report_spec_witness :
    Autologin.getLoginStatus (some (sessionJson ("user") 0 1 0)) 130000 =
      Autologin.Report.lastLogin 0 2 ∧
    Autologin.getLoginStatus none 130000 = Autologin.Report.neverLoggedIn := by
  constructor
  · have h := describe_report_spec.2.2 (sessionJson ("user") 0 1 0) 0 130000 (by rfl) (by omega)
    rw [h]
    norm_num
  · exact describe_report_spec.1 130000

/-- C4: with a transport on which every attempt fails, autologin.js
`loginWithRetry` performs exactly 3 POSTs, sleeps the fixed 5-second delay
exactly between consecutive attempts (twice, never after the last), and returns
`success=false` with a message summarizing the last error. -/
theorem always_fail_three_attempts
    (transport : Nat → PostResult) (u : String) (now : Nat) (tr : Trace)
    (h1 : isOk200 (transport 1) = false) (h2 : isOk200 (transport 2) = false)
    (h3 : isOk200 (transport 3) = false) :
    (Autologin.loginWithRetry transport u now tr).2.posts = tr.posts + 3 ∧
    (Autologin.loginWithRetry transport u now tr).2.sleeps =
      tr.sleeps ++ [retryDelay, retryDelay] ∧
    (Autologin.loginWithRetry transport u now tr).1 =
      some { success := false,
             message := "❌ All login attempts failed: " ++ axiosErrMsg (transport 3),
             attempt := 3, timestamp := now } := by
  simp [Autologin.loginWithRetry, attempts_eq, Autologin.loginLoop, h1, h2, h3,
    pushLog, pushPost, pushSleep, maxRetries, List.append_assoc]

/-- C4 (witness): a transport that always times out exhausts the three
attempts. -/
theorem always_fail_three_attempts_witness :
    (Autologin.loginWithRetry (fun _ => PostResult.netError ("timeout of 15000ms exceeded"))
        ("user") 7 Trace.empty).2.posts = Trace.empty.posts + 3 ∧
    (Autologin.loginWithRetry (fun _ => PostResult.netError ("timeout of 15000ms exceeded"))
        ("user") 7 Trace.empty).2.sleeps = Trace.empty.sleeps ++ [retryDelay, retryDelay] ∧
    (Autologin.loginWithRetry (fun _ => PostResult.netError ("timeout of 15000ms exceeded"))
        ("user") 7 Trace.empty).1 =
      some { success := false,
             message := "❌ All login attempts failed: " ++
               axiosErrMsg ((fun _ => PostResult.netError ("timeout of 15000ms exceeded")) 3),
             attempt := 3, timestamp := 7 } :=
  always_fail_three_attempts (fun _ => PostResult.netError ("timeout of 15000ms exceeded"))
    ("user") 7 Trace.empty (by rfl) (by rfl) (by rfl)

/-- Session preservation of the attempt loop on every path whose outcome is a
failure: `saveSession` is reached only in the status-200 branch. -/
lemma loginLoop_session_eq (transport : Nat → PostResult) (u : String) (now : Nat) :
    ∀ (l : List Nat) (tr : Trace) (o : LoginOutcome),
      (Autologin.loginLoop transport u now l tr).1 = some o → o.success = false →
      (Autologin.loginLoop transport u now l tr).2.session = tr.session := by
  intro l
  induction l with
  | nil =>
    intro tr o h hs
    simp [Autologin.loginLoop] at h
  | cons a rest ih =>
    intro tr o h hs
    simp only [Autologin.loginLoop] at h ⊢
    cases hok : isOk200 (transport a) with
    | true =>
      exfalso
      simp [hok] at h
      rw [← h] at hs
      simp at hs
    | false =>
      by_cases hlt : a < maxRetries
      · simp only [hok, Bool.false_eq_true, if_false, if_pos hlt] at h ⊢
        rw [ih _ o h hs]
        simp [pushLog, pushPost, pushSleep]
      · simp only [hok, Bool.false_eq_true, if_false, if_neg hlt] at h ⊢
        simp [pushLog, pushPost]

/-- C10: whenever autologin.js `loginWithRetry` returns a failure outcome, the
persisted session record is exactly what it was before the call. -/
theorem fail_preserves_session :
    ∀ (transport : Nat → PostResult) (u : String) (now : Nat) (tr : Trace) (o : LoginOutcome),
      (Autologin.loginWithRetry transport u now tr).1 = some o → o.success = false →
      (Autologin.loginWithRetry transport u now tr).2.session = tr.session := by
  intro transport u now tr o h hs
  exact loginLoop_session_eq transport u now _ tr o h hs

/-- C10 (witness): a run in which every attempt is refused leaves the (empty)
session store empty. -/
theorem fail_preserves_session_witness :
    (Autologin.loginWithRetry (fun _ => PostResult.netError ("connection refused"))
        ("user") 0 Trace.empty).2.session = Trace.empty.session :=
  fail_preserves_session (fun _ => PostResult.netError ("connection refused")) ("user") 0
    Trace.empty
    ({ success := false,
       message := "❌ All login attempts failed: " ++ "connection refused",
       attempt := 3, timestamp := 0 })
    (by rfl) (by rfl)

/-- C3: with a transport failing twice and then answering 200 on the 3rd
attempt, autologin.js stops at attempt 3, returns success with attempt number
3, and persists a session record whose attempt field is 3; under
`autoRetry=true` autolofi.js likewise returns `{success: true, attempt: 3}`
(it persists nothing — it has no session store). -/
theorem third_attempt_success :
    (∀ (transport : Nat → PostResult) (u : String) (now : Nat) (tr : Trace) (text : String),
      isOk200 (transport 1) = false → isOk200 (transport 2) = false →
      transport 3 = PostResult.response 200 text →
      (Autologin.loginWithRetry transport u now tr).1 =
        some { success := true, message := "✅ Login successful!",
               attempt := 3, timestamp := now } ∧
      (Autologin.loginWithRetry transport u now tr).2.posts = tr.posts + 3 ∧
      (Autologin.loginWithRetry transport u now tr).2.session =
        some (sessionJson u now 3 now) ∧
      jnum (jlookup ("attempt") (sessionJson u now 3 now)) = some 3) ∧
    (∀ (cfg : RawConfig) (transport : Nat → PostResult) (tr : Trace) (text : String),
      cfg.settings.autoRetry = true →
      isOk200 (transport 1) = false → isOk200 (transport 2) = false →
      transport 3 = PostResult.response 200 text →
      (Autolofi.executeLogin cfg transport tr).1 = Autolofi.LofiOutcome.ok 3) := by
  constructor
  · intro transport u now tr text h1 h2 htr
    simp [Autologin.loginWithRetry, attempts_eq, Autologin.loginLoop, h1, h2, htr,
      isOk200_response200, saveSession, pushLog, pushPost, pushSleep, maxRetries]
    rfl
  · intro cfg transport tr text hAR hf1 hf2 htr
    simp only [Autolofi.executeLogin, hAR, lofi_attempts_true, Autolofi.lofiLoop]
    cases ht1 : Autolofi.lofiThrows (transport 1) <;>
      cases ht2 : Autolofi.lofiThrows (transport 2) <;>
        simp [ht1, ht2, hf1, hf2, htr, lofiThrows_response200, isOk200_response200,
          pushLog, pushPost, pushSleep, maxRetries]

/-- C3 (witness): the two-failures-then-200 script yields the stated outcome
in both implementations. -/
theorem third_attempt_success_witness :
    (Autologin.loginWithRetry
        (fun n => if n < 3 then PostResult.netError ("connection refused")
          else PostResult.response 200 ("OK")) ("user") 5 Trace.empty).1 =
      some { success := true, message := "✅ Login successful!",
             attempt := 3, timestamp := 5 } ∧
    (Autolofi.executeLogin
        ({ username := some ("user"), password := some ("pass"),
           settings := { enableNotifications := true, autoRetry := true,
                         checkConnection := true, logToFile := true } })
        (fun n => if n < 3 then PostResult.netError ("connection refused")
          else PostResult.response 200 ("OK")) Trace.empty).1 =
      Autolofi.LofiOutcome.ok 3 := by
  constructor
  · exact (third_attempt_success.1
      (fun n => if n < 3 then PostResult.netError ("connection refused")
        else PostResult.response 200 ("OK")) ("user") 5 Trace.empty ("OK")
      (by rfl) (by rfl) (by rfl)).1
  · exact third_attempt_success.2
      ({ username := some ("user"), password := some ("pass"),
         settings := { enableNotifications := true, autoRetry := true,
                       checkConnection := true, logToFile := true } })
      (fun n => if n < 3 then PostResult.netError ("connection refused")
        else PostResult.response 200 ("OK")) Trace.empty ("OK")
      (by rfl) (by rfl) (by rfl) (by rfl)

/-- The branch on sleeping before a retry never changes the POST count. -/
lemma trace_posts_branch (c : Bool) (tr2 : Trace) (m : String) (d : Nat) :
    (if c = true then pushSleep (pushLog tr2 m) d else tr2).posts = tr2.posts := by
  cases c <;> simp [pushSleep, pushLog]

/-- The attempt loop of autolofi.js never loses POSTs: the count of the final
trace dominates the count of the starting trace. -/
lemma lofiLoop_posts_le (transport : Nat → PostResult) (ar : Bool) :
    ∀ (l : List Nat) (tr : Trace),
      tr.posts ≤ (Autolofi.lofiLoop transport ar l tr).2.posts := by
  intro l
  induction l with
  | nil => intro tr; exact Nat.le_refl _
  | cons a rest ih =>
    intro tr
    simp only [Autolofi.lofiLoop]
    by_cases ht : Autolofi.lofiThrows (transport a) = true
    · rw [if_pos ht]
      refine Nat.le_trans (Nat.le_succ tr.posts) (Nat.le_trans ?_ (ih _))
      rw [trace_posts_branch]
      simp [pushLog, pushPost]
    · rw [if_neg ht]
      by_cases ho : isOk200 (transport a) = true
      · rw [if_pos ho]
        simp [pushLog, pushPost]
      · rw [if_neg ho]
        refine Nat.le_trans (Nat.le_succ tr.posts) (Nat.le_trans ?_ (ih _))
        simp [pushPost]

/-- One loop iteration of autolofi.js always issues its POST first, whatever
the attempt result. -/
lemma lofiLoop_cons_posts (transport : Nat → PostResult) (ar : Bool) (a : Nat)
    (rest : List Nat) (tr : Trace) :
    tr.posts + 1 ≤ (Autolofi.lofiLoop transport ar (a :: rest) tr).2.posts := by
  simp only [Autolofi.lofiLoop]
  by_cases ht : Autolofi.lofiThrows (transport a) = true
  · rw [if_pos ht]
    refine Nat.le_trans ?_ (lofiLoop_posts_le transport ar rest _)
    rw [trace_posts_branch]
    simp [pushLog, pushPost]
  · rw [if_neg ht]
    by_cases ho : isOk200 (transport a) = true
    · rw [if_pos ho]
      simp [pushLog, pushPost]
    · rw [if_neg ho]
      refine Nat.le_trans ?_ (lofiLoop_posts_le transport ar rest _)
      simp [pushPost]

/-- C1 (counterexample): the claim states that with `settings.autoRetry = false`
one invocation performs exactly 1 POST, but the autologin.js login procedure
never reads `autoRetry` — on an always-failing transport it performs 3 POSTs
even with `autoRetry = false` in the configuration. -/
theorem autologin_ignores_autoretry_cex :
    (Autologin.executeLogin
        ({ username := "user", password := "pass",
           settings := { enableNotifications := false, autoRetry := false,
                         checkConnection := false, logToFile := false } })
        true (fun _ => PostResult.netError ("timeout of 15000ms exceeded")) 0
        Trace.empty).2.posts = 3 := by
  rfl

/-- C1 (amended): with `autoRetry = false`, autolofi.js `executeLogin` performs
exactly 1 POST regardless of the attempt outcome, while the autologin.js retry
loop ignores `autoRetry` and performs 3 POSTs whenever every attempt fails. -/
theorem autoretry_attempt_cap :
    (∀ (cfg : RawConfig) (transport : Nat → PostResult) (tr : Trace),
      cfg.settings.autoRetry = false →
      (Autolofi.executeLogin cfg transport tr).2.posts = tr.posts + 1) ∧
    (∀ (transport : Nat → PostResult) (u : String) (now : Nat) (tr : Trace),
      isOk200 (transport 1) = false → isOk200 (transport 2) = false →
      isOk200 (transport 3) = false →
      (Autologin.loginWithRetry transport u now tr).2.posts = tr.posts + 3) := by
  constructor
  · intro cfg transport tr hAR
    simp only [Autolofi.executeLogin, hAR, lofi_attempts_false, Autolofi.lofiLoop]
    cases ht : Autolofi.lofiThrows (transport 1) with
    | true => simp [ht, pushLog, pushPost, pushSleep]
    | false =>
      cases ho : isOk200 (transport 1) <;> simp [ht, ho, pushLog, pushPost, pushSleep]
  · intro transport u now tr h1 h2 h3
    simp [Autologin.loginWithRetry, attempts_eq, Autologin.loginLoop, h1, h2, h3,
      pushLog, pushPost, pushSleep, maxRetries]

/-- C1 (witness): with `autoRetry = false`, a refused attempt in autolofi.js
still amounts to a single POST, and the same transport costs autologin.js three
POSTs. -/
theorem autoretry_attempt_cap_witness :
    (Autolofi.executeLogin
        ({ username := some ("user"), password := some ("pass"),
           settings := { enableNotifications := true, autoRetry := false,
                         checkConnection := true, logToFile := true } })
        (fun _ => PostResult.netError ("connection refused")) Trace.empty).2.posts =
      Trace.empty.posts + 1 ∧
    (Autologin.loginWithRetry (fun _ => PostResult.netError ("connection refused"))
        ("user") 0 Trace.empty).2.posts = Trace.empty.posts + 3 :=
  ⟨autoretry_attempt_cap.1
      ({ username := some ("user"), password := some ("pass"),
         settings := { enableNotifications := true, autoRetry := false,
                       checkConnection := true, logToFile := true } })
      (fun _ => PostResult.netError ("connection refused")) Trace.empty (by rfl),
   autoretry_attempt_cap.2 (fun _ => PostResult.netError ("connection refused"))
      ("user") 0 Trace.empty (by rfl) (by rfl) (by rfl)⟩

/-- C2 (counterexample): the claim states that with `checkConnection = true` and
a disconnected probe the login procedure returns a failure outcome
(`success=false` with a message); autologin.js `executeLogin` instead produces
no LoginOutcome at all on that path (the function returns undefined). -/
theorem connection_check_no_outcome_cex :
    (Autologin.executeLogin
        ({ username := "user", password := "pass",
           settings := { enableNotifications := true, autoRetry := true,
                         checkConnection := true, logToFile := true } })
        false (fun _ => PostResult.netError ("unreachable")) 0 Trace.empty).1 = none ∧
    (Autologin.executeLogin
        ({ username := "user", password := "pass",
           settings := { enableNotifications := true, autoRetry := true,
                         checkConnection := true, logToFile := true } })
        false (fun _ => PostResult.netError ("unreachable")) 0 Trace.empty).2.posts = 0 :=
  ⟨rfl, rfl⟩

/-- C2 (amended): with `checkConnection = true` and a disconnected probe,
autologin.js `executeLogin` issues no POST, leaves the session store untouched,
and logs a distinct no-internet error, but produces no LoginOutcome (rather
than a `success=false` outcome); autolofi.js `executeLogin` never consults the
probe and always issues at least one POST. -/
theorem connection_check_short_circuit :
    (∀ (cfg : Config) (transport : Nat → PostResult) (now : Nat) (tr : Trace),
      cfg.settings.checkConnection = true →
      (Autologin.executeLogin cfg false transport now tr).1 = none ∧
      (Autologin.executeLogin cfg false transport now tr).2.posts = tr.posts ∧
      (Autologin.executeLogin cfg false transport now tr).2.session = tr.session ∧
      (Autologin.executeLogin cfg false transport now tr).2.logs =
        tr.logs ++ ["--- Starting login process ---", "❌ No internet connection"]) ∧
    (∀ (cfg : RawConfig) (transport : Nat → PostResult) (tr : Trace),
      tr.posts + 1 ≤ (Autolofi.executeLogin cfg transport tr).2.posts) := by
  constructor
  · intro cfg transport now tr hcc
    simp [Autologin.executeLogin, hcc, pushLog]
  · intro cfg transport tr
    simp only [Autolofi.executeLogin]
    cases hAR : cfg.settings.autoRetry with
    | true =>
      simp only [hAR, lofi_attempts_true]
      have hp := lofiLoop_cons_posts transport true 1 [2, 3] (pushLog tr ("Login attempt"))
      rcases hres : Autolofi.lofiLoop transport true [1, 2, 3]
          (pushLog tr ("Login attempt")) with ⟨r, tr1⟩
      rw [hres] at hp
      simp only [pushLog] at hp
      cases r <;> simp [hres, pushLog] <;> omega
    | false =>
      simp only [hAR, lofi_attempts_false]
      have hp := lofiLoop_cons_posts transport false 1 [] (pushLog tr ("Login attempt"))
      rcases hres : Autolofi.lofiLoop transport false [1]
          (pushLog tr ("Login attempt")) with ⟨r, tr1⟩
      rw [hres] at hp
      simp only [pushLog] at hp
      cases r <;> simp [hres, pushLog] <;> omega

/-- C2 (witness): the short-circuit path logs its distinct error, and
autolofi.js still POSTs on the very same disconnected network. -/
theorem connection_check_short_circuit_witness :
    (Autologin.executeLogin
        ({ username := "user", password := "pass",
           settings := { enableNotifications := true, autoRetry := true,
                         checkConnection := true, logToFile := true } })
        false (fun _ => PostResult.netError ("unreachable")) 3 Trace.empty).2.logs =
      Trace.empty.logs ++ ["--- Starting login process ---", "❌ No internet connection"] ∧
    Trace.empty.posts + 1 ≤
      (Autolofi.executeLogin
        ({ username := some ("user"), password := some ("pass"),
           settings := { enableNotifications := true, autoRetry := true,
                         checkConnection := true, logToFile := true } })
        (fun _ => PostResult.netError ("unreachable")) Trace.empty).2.posts :=
  ⟨(connection_check_short_circuit.1
      ({ username := "user", password := "pass",
         settings := { enableNotifications := true, autoRetry := true,
                       checkConnection := true, logToFile := true } })
      (fun _ => PostResult.netError ("unreachable")) 3 Trace.empty (by rfl)).2.2.2,
   connection_check_short_circuit.2
      ({ username := some ("user"), password := some ("pass"),
         settings := { enableNotifications := true, autoRetry := true,
                       checkConnection := true, logToFile := true } })
      (fun _ => PostResult.netError ("unreachable")) Trace.empty⟩

/-- C6 (counterexample): the claim states that a parsed configuration lacking a
username makes configuration loading fail and leaves the service stopped, but
autolofi.js `loadConfig` performs no username/password validation, and
`startService` proceeds to the Running state with a login timer armed. -/
theorem autolofi_no_credential_validation_cex :
    Autolofi.loadConfigParsed
        ({ username := none, password := some ("pass"),
           settings := { enableNotifications := true, autoRetry := true,
                         checkConnection := true, logToFile := true } }) =
      Except.ok
        ({ username := none, password := some ("pass"),
           settings := { enableNotifications := true, autoRetry := true,
                         checkConnection := true, logToFile := true } }) ∧
    (Autolofi.startService
        ({ username := none, password := some ("pass"),
           settings := { enableNotifications := true, autoRetry := true,
                         checkConnection := true, logToFile := true } })
        ({ isRunning := false, loginArmed := false, activeLogin := 0 })).isRunning = true ∧
    (Autolofi.startService
        ({ username := none, password := some ("pass"),
           settings := { enableNotifications := true, autoRetry := true,
                         checkConnection := true, logToFile := true } })
        ({ isRunning := false, loginArmed := false, activeLogin := 0 })).activeLogin = 1 :=
  ⟨rfl, rfl, rfl⟩

/-- C6 (amended): in autologin.js, a parsed configuration lacking a truthy
username or password makes `loadConfig` throw the not-found error and leaves
`start()` a complete no-op on a stopped state: no timer is armed and the
service stays Stopped. -/
theorem autologin_config_validation :
    ∀ (c : RawConfig), truthyStr c.username = false ∨ truthyStr c.password = false →
      Autologin.loadConfig (some c) =
        Except.error ("Username or password not found in config") ∧
      (∀ (s : Autologin.SchedState), s.isRunning = false →
        Autologin.startOp (some c) s = s) := by
  intro c h
  have hcond : (truthyStr c.username && truthyStr c.password) = false := by
    rcases h with h | h <;> simp [h]
  constructor
  · simp [Autologin.loadConfig, hcond]
  · intro s hs
    simp [Autologin.startOp, hs, Autologin.loadConfig, hcond]

/-- C6 (witness): a config without a username is rejected and start is inert
from the initial state. -/
theorem autologin_config_validation_witness :
    Autologin.loadConfig (some rawNoUsername) =
      Except.error ("Username or password not found in config") ∧
    Autologin.startOp (some rawNoUsername) Autologin.initState = Autologin.initState :=
  ⟨(autologin_config_validation rawNoUsername (Or.inl (by rfl))).1,
   (autologin_config_validation rawNoUsername (Or.inl (by rfl))).2
      Autologin.initState (by rfl)⟩

/-- The inductive invariant of the autologin.js scheduler: the live-timer count
of each kind matches its armed flag, and a stopped service has no armed
timers. -/
lemma sched_inv {s : Autologin.SchedState} (h : Autologin.Reached s) :
    (s.activeLogin = if s.loginArmed then 1 else 0) ∧
    (s.activeConn = if s.connArmed then 1 else 0) ∧
    (s.isRunning = false → s.loginArmed = false ∧ s.connArmed = false) := by
  induction h with
  | init => simp [Autologin.initState]
  | step_start file s h ih =>
    rcases ih with ⟨i1, i2, i3⟩
    cases hr : s.isRunning with
    | true =>
      have hstart : Autologin.startOp file s = s := by
        simp [Autologin.startOp, hr]
      rw [hstart]
      exact ⟨i1, i2, i3⟩
    | false =>
      have harm := i3 hr
      cases hcfg : Autologin.loadConfig file with
      | error e =>
        have hstart : Autologin.startOp file s = s := by
          simp [Autologin.startOp, hr, hcfg]
        rw [hstart]
        exact ⟨i1, i2, i3⟩
      | ok cfg =>
        have hstart : Autologin.startOp file s =
            ({ isRunning := true, loginArmed := true, activeLogin := s.activeLogin + 1,
               connArmed := if cfg.settings.checkConnection then true else s.connArmed,
               activeConn := if cfg.settings.checkConnection then s.activeConn + 1
                 else s.activeConn }) := by
          simp [Autologin.startOp, hr, hcfg]
        rw [hstart]
        cases hcc : cfg.settings.checkConnection <;>
          simp [hcc, i1, i2, harm.1, harm.2]
  | step_stop s h ih =>
    rcases ih with ⟨i1, i2, i3⟩
    cases hl : s.loginArmed <;> cases hc : s.connArmed <;>
      simp [Autologin.stopOp, hl, hc, i1, i2]

/-- C7: in every reachable scheduler state there is at most one live login
timer and at most one live connectivity timer; `start` in the Running state
changes no state; and `stop` is idempotent and total (it never raises). -/
theorem scheduler_invariants :
    (∀ (s : Autologin.SchedState), Autologin.Reached s →
      s.activeLogin ≤ 1 ∧ s.activeConn ≤ 1) ∧
    (∀ (file : Option RawConfig) (s : Autologin.SchedState), s.isRunning = true →
      Autologin.startOp file s = s) ∧
    (∀ (s : Autologin.SchedState),
      Autologin.stopOp (Autologin.stopOp s) = Autologin.stopOp s) := by
  refine ⟨?_, ?_, ?_⟩
  · intro s hs
    rcases sched_inv hs with ⟨i1, i2, _⟩
    constructor
    · rw [i1]
      split <;> omega
    · rw [i2]
      split <;> omega
  · intro file s hs
    simp [Autologin.startOp, hs]
  · intro s
    simp [Autologin.stopOp]

/-- C7 (witness): the invariants at concrete states — a freshly started
service, a running service hit by a second `start`, and a double `stop` from
the initial state. -/
theorem scheduler_invariants_witness :
    ((Autologin.startOp (some rawFull) Autologin.initState).activeLogin ≤ 1 ∧
     (Autologin.startOp (some rawFull) Autologin.initState).activeConn ≤ 1) ∧
    Autologin.startOp none runningState = runningState ∧
    Autologin.stopOp (Autologin.stopOp Autologin.initState) =
      Autologin.stopOp Autologin.initState :=
  ⟨scheduler_invariants.1 _
      (Autologin.Reached.step_start (some rawFull) Autologin.initState
        Autologin.Reached.init),
   scheduler_invariants.2.1 none runningState (by rfl),
   scheduler_invariants.2.2 Autologin.initState⟩

/-- C9: saving a SessionRecord and reloading it through the session store yields
a record whose username and attempt fields equal those of the saved record. -/
theorem session_roundtrip :
    ∀ (r : SessionRecord) (now : Nat) (file : Option JObj),
      ∃ (o : JObj), loadSession (saveSession r now file) = some o ∧
        jlookup ("username") o = some (JVal.str r.username) ∧
        jlookup ("attempt") o = some (JVal.num r.attempt) := by
  intro r now file
  exact ⟨sessionJson r.username r.loginTime r.attempt now, rfl, rfl, rfl⟩
